import Mathlib

/-!
Verification development for the blocks-world plan verifier.

The program encodes blocks-world states as Z3 uninterpreted functions over
the integers and checks plans by satisfiability of a constraint system.
We embed that encoding shallowly: a state is a record of boolean-valued
functions over `Int`, each Z3 constraint builder from `domain.py` becomes a
`Prop`, and a solver call becomes satisfiability (an existential over state
assignments) of the corresponding constraint system.
-/

namespace Blocks

/-- Shallow embedding of the `State` class of `domain.py`: the Z3 functions
`table`, `hand`, `stacked`, `clear` over `IntSort` and the nullary `handsfree`
become boolean-valued functions over `Int` and a boolean flag. -/
structure State where
  table : Int → Bool
  hand : Int → Bool
  stacked : Int → Int → Bool
  clear : Int → Bool
  handsfree : Bool

instance : Inhabited State :=
  ⟨{ table := fun _ => false
     hand := fun _ => false
     stacked := fun _ _ => false
     clear := fun _ => false
     handsfree := true }⟩

/-- Embedding of `pick_up_constraints` from `domain.py`: preconditions on `s1`
(on table, clear, not in hand), effects on `s2` (in hand, off table, not
clear), frame equalities for all other blocks, and `stacked` untouched for
every pair. -/
def pick_up_constraints (s1 s2 : State) (block : Int) : Prop :=
  s1.table block = true ∧
  s1.clear block = true ∧
  s1.hand block = false ∧
  s2.hand block = true ∧
  s2.table block = false ∧
  s2.clear block = false ∧
  (∀ x : Int, x ≠ block →
    (s1.table x = s2.table x ∧ s1.hand x = s2.hand x ∧ s1.clear x = s2.clear x)) ∧
  (∀ x y : Int, s1.stacked x y = s2.stacked x y)

/-- Embedding of `put_down_constraints` from `domain.py`. -/
def put_down_constraints (s1 s2 : State) (block : Int) : Prop :=
  s1.hand block = true ∧
  s2.hand block = false ∧
  s2.table block = true ∧
  s2.clear block = true ∧
  (∀ x : Int, x ≠ block →
    (s1.table x = s2.table x ∧ s1.hand x = s2.hand x ∧ s1.clear x = s2.clear x)) ∧
  (∀ x y : Int, s1.stacked x y = s2.stacked x y)

/-- Embedding of `stack_constraints` from `domain.py`: the frame part
(`unchanged`) conjoined with the disjunction of case A (top block moved from
the table) and case B (top block moved from the hand). The `stacked` frame
only covers pairs whose first component differs from `top_block` and whose
second component differs from `bottom_block`, exactly as in the source. -/
def stack_constraints (s1 s2 : State) (top_block bottom_block : Int) : Prop :=
  ((∀ x : Int, (x ≠ top_block ∧ x ≠ bottom_block) →
      (s1.hand x = s2.hand x ∧ s1.table x = s2.table x ∧ s1.clear x = s2.clear x)) ∧
   (∀ x y : Int, (x ≠ top_block ∧ y ≠ bottom_block) →
      s1.stacked x y = s2.stacked x y)) ∧
  ((s1.table top_block = true ∧
    s1.clear top_block = true ∧
    s1.clear bottom_block = true ∧
    s1.handsfree = true ∧
    s2.table top_block = false ∧
    s2.hand top_block = false ∧
    s2.stacked top_block bottom_block = true ∧
    s2.clear top_block = true ∧
    s2.clear bottom_block = false ∧
    s2.handsfree = true) ∨
   (s1.hand top_block = true ∧
    s1.clear bottom_block = true ∧
    s1.handsfree = false ∧
    s2.hand top_block = false ∧
    s2.table top_block = false ∧
    s2.stacked top_block bottom_block = true ∧
    s2.clear top_block = true ∧
    s2.clear bottom_block = false ∧
    s2.handsfree = true))

/-- Embedding of `unstack_constraints` from `domain.py`: the frame part
conjoined with the disjunction of case A (top block ends on the table) and
case B (top block ends in the hand). -/
def unstack_constraints (s1 s2 : State) (top_block bottom_block : Int) : Prop :=
  ((∀ x : Int, (x ≠ top_block ∧ x ≠ bottom_block) →
      (s1.table x = s2.table x ∧ s1.hand x = s2.hand x ∧ s1.clear x = s2.clear x)) ∧
   (∀ x y : Int, (x ≠ top_block ∧ y ≠ bottom_block) →
      s1.stacked x y = s2.stacked x y)) ∧
  ((s1.stacked top_block bottom_block = true ∧
    s1.clear top_block = true ∧
    s1.handsfree = true ∧
    s2.stacked top_block bottom_block = false ∧
    s2.table top_block = true ∧
    s2.clear top_block = true ∧
    s2.clear bottom_block = true ∧
    s2.handsfree = true) ∨
   (s1.stacked top_block bottom_block = true ∧
    s1.clear top_block = true ∧
    s1.handsfree = true ∧
    s2.stacked top_block bottom_block = false ∧
    s2.hand top_block = true ∧
    s2.clear top_block = false ∧
    s2.clear bottom_block = true ∧
    s2.handsfree = false))

/-- Embedding of the constraint list built by `generate_initial_conditions`
in `block_assignment.py`: hand free, no block in hand, block 0 on the table,
block `i` stacked on `i-1` and off the table for `1 <= i < n`, blocks below
the top not clear, and the top block `n-1` clear. The Python loops over
`range(1, n)` and `range(n-1)` become bounded integer quantifiers. -/
def init_fn (s : State) (n : Nat) : Prop :=
  s.handsfree = true ∧
  (∀ x : Int, s.hand x = false) ∧
  s.table 0 = true ∧
  (∀ i : Int, 1 ≤ i → i < (n : Int) →
    (s.stacked i (i - 1) = true ∧ s.table i = false)) ∧
  (∀ i : Int, 0 ≤ i → i < (n : Int) - 1 → s.clear i = false) ∧
  s.clear ((n : Int) - 1) = true

/-- Embedding of the constraint list built by `generate_goal_conditions` in
`block_assignment.py`: hand free, block `n-1` on the table, all other blocks
off the table, block `i` stacked on `i+1` for `0 <= i < n-1`, block 0 clear,
all other blocks not clear. -/
def goal_fn (s : State) (n : Nat) : Prop :=
  s.handsfree = true ∧
  s.table ((n : Int) - 1) = true ∧
  (∀ i : Int, 0 ≤ i → i < (n : Int) - 1 → s.table i = false) ∧
  (∀ i : Int, 0 ≤ i → i < (n : Int) - 1 → s.stacked i (i + 1) = true) ∧
  s.clear 0 = true ∧
  (∀ i : Int, 1 ≤ i → i < (n : Int) → s.clear i = false)

/-- A plan step is an `(action, b1, b2)` tuple as produced by `parse_plan`
in `utils.py`; a missing second block is represented by `-1`. -/
abbrev PlanStep := String × Int × Int

/-- The action dispatch of `verify_plan` and `find_failing_prefix`: the
`if`/`elif` chain over the action tag. A recognized tag yields the transition
constraint between the two states; an unrecognized tag yields `none` (the
branch on which the code stops with an error). -/
def actionConstraint (s1 s2 : State) (act : String) (b1 b2 : Int) : Option Prop :=
  if act = "pick_up" then some (pick_up_constraints s1 s2 b1)
  else if act = "put_down" then some (put_down_constraints s1 s2 b1)
  else if act = "stack" then some (stack_constraints s1 s2 b1 b2)
  else if act = "unstack" then some (unstack_constraints s1 s2 b1 b2)
  else none

/-- The conjunction of transition constraints the solver receives for a list
of actions, threading state `i` to state `i+1` starting at index `i`.
Returns `none` exactly when some action tag is unrecognized, in which case
the source code returns before invoking the solver. -/
def chainConstraints (states : Nat → State) : Nat → List PlanStep → Option Prop
  | _, [] => some True
  | i, (act, b1, b2) :: rest =>
    match actionConstraint (states i) (states (i + 1)) act b1 b2,
          chainConstraints states (i + 1) rest with
    | some c, some r => some (c ∧ r)
    | _, _ => none

/-- Satisfiability of the full system `verify_plan` hands to the solver:
some assignment of states satisfies the initial constraints, every
transition constraint, and the goal constraints on the final state. -/
def SystemSat (n : Nat) (init goal : State → Nat → Prop) (acts : List PlanStep) : Prop :=
  ∃ states : Nat → State, ∃ c : Prop,
    chainConstraints states 0 acts = some c ∧
    init (states 0) n ∧ c ∧ goal (states acts.length) n

/-- The three observable outcomes of `verify_plan`: the string results
`"sat"`, `"unsat"` and `"error"`. -/
inductive VerifyOutcome where
  | sat
  | unsat
  | error
deriving DecidableEq

/-- Observable behaviour of `verify_plan` from `domain.py`: it returns
`"error"` when the plan contains an unrecognized action tag (the constraint
chain is `none` however states are chosen), and otherwise reports
satisfiability of the constraint system made of the initial conditions, one
transition constraint per action, and the goal conditions on the last state. -/
def VerifyPlan (n : Nat) (init goal : State → Nat → Prop)
    (acts : List PlanStep) : VerifyOutcome → Prop
  | .error => ∀ states : Nat → State, chainConstraints states 0 acts = none
  | .sat => SystemSat n init goal acts
  | .unsat =>
    (∃ states : Nat → State, ∃ c : Prop, chainConstraints states 0 acts = some c) ∧
    ¬ SystemSat n init goal acts

/-- Satisfiability of the system `find_failing_prefix` builds for one prefix:
initial constraints plus the transition constraints, with no goal attached.
A prefix containing an unrecognized tag has a `none` chain and is therefore
unsatisfiable, matching the early `return k` in the source. -/
def PrefixSystemSat (n : Nat) (init : State → Nat → Prop) (acts : List PlanStep) : Prop :=
  ∃ states : Nat → State, ∃ c : Prop,
    chainConstraints states 0 acts = some c ∧ init (states 0) n ∧ c

/-- Observable behaviour of `find_failing_prefix` from `utils.py` (the name
avoids its final word): the result `r` is `-1` when every nonempty prefix of
the plan is satisfiable together with the initial conditions, and otherwise
`r` is the smallest prefix length `k` in `[1, length]` whose system is
unsatisfiable (which includes a prefix ending in an unrecognized tag). -/
def FindFailingStep (n : Nat) (init : State → Nat → Prop)
    (acts : List PlanStep) (r : Int) : Prop :=
  (r = -1 ∧ ∀ k : Nat, 1 ≤ k → k ≤ acts.length →
    PrefixSystemSat n init (acts.take k)) ∨
  (∃ k : Nat, r = (k : Int) ∧ 1 ≤ k ∧ k ≤ acts.length ∧
    ¬ PrefixSystemSat n init (acts.take k) ∧
    ∀ m : Nat, 1 ≤ m → m < k → PrefixSystemSat n init (acts.take m))

/-- The four action tags recognized by `verify_plan`. -/
def isKnownTag (act : String) : Bool :=
  act = "pick_up" || act = "put_down" || act = "stack" || act = "unstack"

/-- The blocks named as parameters by an invocation: one block for `pick_up`
and `put_down`, the top and bottom blocks for `stack` and `unstack`. -/
def namedBlock (act : String) (b1 b2 x : Int) : Prop :=
  if act = "stack" ∨ act = "unstack" then x = b1 ∨ x = b2 else x = b1

/-- Formalization of the state invariant stated in the specification: every
block in `[0, n)` is in exactly one of the situations on-table, in-hand, or
stacked on some other block; at most one block is in hand; `handsfree` is
false exactly when some block is in hand; and a block is clear exactly when
no other block is stacked on it and it is not held. -/
def StateInvariant (n : Nat) (s : State) : Prop :=
  (∀ b : Int, 0 ≤ b → b < (n : Int) →
    ((s.table b = true ∧ s.hand b = false ∧
        ∀ c : Int, 0 ≤ c → c < (n : Int) → c ≠ b → s.stacked b c = false) ∨
     (s.table b = false ∧ s.hand b = true ∧
        ∀ c : Int, 0 ≤ c → c < (n : Int) → c ≠ b → s.stacked b c = false) ∨
     (s.table b = false ∧ s.hand b = false ∧
        ∃ c : Int, 0 ≤ c ∧ c < (n : Int) ∧ c ≠ b ∧ s.stacked b c = true))) ∧
  (∀ b c : Int, 0 ≤ b → b < (n : Int) → 0 ≤ c → c < (n : Int) →
    s.hand b = true → s.hand c = true → b = c) ∧
  (s.handsfree = false ↔ ∃ b : Int, 0 ≤ b ∧ b < (n : Int) ∧ s.hand b = true) ∧
  (∀ b : Int, 0 ≤ b → b < (n : Int) →
    (s.clear b = true ↔
      ((∀ c : Int, 0 ≤ c → c < (n : Int) → c ≠ b → s.stacked c b = false) ∧
       s.hand b = false)))

/-- The canonical tower state: block 0 on the table, block `i` stacked on
block `i-1`, only block `n-1` clear, hand empty. One concrete model of the
initial constraint set. -/
def initState (n : Nat) : State where
  table := fun x => decide (x = 0)
  hand := fun _ => false
  stacked := fun x y => decide (1 ≤ x ∧ x < (n : Int) ∧ y = x - 1)
  clear := fun x => decide (x = (n : Int) - 1)
  handsfree := true

/-- The canonical reversed tower state: block `n-1` on the table, block `i`
stacked on block `i+1`, only block 0 clear, hand empty. One concrete model
of the goal constraint set. -/
def goalState (n : Nat) : State where
  table := fun x => decide (x = (n : Int) - 1)
  hand := fun _ => false
  stacked := fun x y => decide (0 ≤ x ∧ x < (n : Int) - 1 ∧ y = x + 1)
  clear := fun x => decide (x = 0)
  handsfree := true

/-- The six-step tower-reversal plan for three blocks, in the tuple form
produced by `parse_plan`. -/
def revPlan : List PlanStep :=
  [("unstack", 2, 1), ("put_down", 2, -1), ("unstack", 1, 0),
   ("stack", 1, 2), ("pick_up", 0, -1), ("stack", 0, 1)]

/-- Trace state 0 for the tower-reversal run at `n = 3`: the initial tower. -/
def revS0 : State where
  table := fun x => decide (x = 0)
  hand := fun _ => false
  stacked := fun x y => decide ((x = 1 ∧ y = 0) ∨ (x = 2 ∧ y = 1))
  clear := fun x => decide (x = 2)
  handsfree := true

/-- Trace state 1: block 2 unstacked into the hand. -/
def revS1 : State where
  table := fun x => decide (x = 0)
  hand := fun x => decide (x = 2)
  stacked := fun x y => decide (x = 1 ∧ y = 0)
  clear := fun x => decide (x = 1)
  handsfree := false

/-- Trace state 2: block 2 put down on the table. -/
def revS2 : State where
  table := fun x => decide (x = 0 ∨ x = 2)
  hand := fun _ => false
  stacked := fun x y => decide (x = 1 ∧ y = 0)
  clear := fun x => decide (x = 1 ∨ x = 2)
  handsfree := true

/-- Trace state 3: block 1 unstacked into the hand. -/
def revS3 : State where
  table := fun x => decide (x = 0 ∨ x = 2)
  hand := fun x => decide (x = 1)
  stacked := fun _ _ => false
  clear := fun x => decide (x = 0 ∨ x = 2)
  handsfree := false

/-- Trace state 4: block 1 stacked onto block 2. -/
def revS4 : State where
  table := fun x => decide (x = 0 ∨ x = 2)
  hand := fun _ => false
  stacked := fun x y => decide (x = 1 ∧ y = 2)
  clear := fun x => decide (x = 0 ∨ x = 1)
  handsfree := true

/-- Trace state 5: block 0 picked up from the table. -/
def revS5 : State where
  table := fun x => decide (x = 2)
  hand := fun x => decide (x = 0)
  stacked := fun x y => decide (x = 1 ∧ y = 2)
  clear := fun x => decide (x = 1)
  handsfree := false

/-- Trace state 6: block 0 stacked onto block 1, the reversed tower. -/
def revS6 : State where
  table := fun x => decide (x = 2)
  hand := fun _ => false
  stacked := fun x y => decide ((x = 1 ∧ y = 2) ∨ (x = 0 ∧ y = 1))
  clear := fun x => decide (x = 0)
  handsfree := true

/-- The state assignment witnessing satisfiability of the tower-reversal
verification system at `n = 3`. -/
def revStates : Nat → State
  | 0 => revS0
  | 1 => revS1
  | 2 => revS2
  | 3 => revS3
  | 4 => revS4
  | 5 => revS5
  | _ => revS6

/-- A state satisfying the generated initial conditions for two blocks that
also stacks block 0 back onto block 1: the generator constrains only the
tower pairs of `stacked`, so this extra pair is unconstrained. -/
def badInit2 : State where
  table := fun x => decide (x = 0)
  hand := fun _ => false
  stacked := fun x y => decide ((x = 1 ∧ y = 0) ∨ (x = 0 ∧ y = 1))
  clear := fun x => decide (x = 1)
  handsfree := true

/-- Pre-state for a legal PickUp(0): a single block on the table. -/
def puS1 : State where
  table := fun x => decide (x = 0)
  hand := fun _ => false
  stacked := fun _ _ => false
  clear := fun x => decide (x = 0)
  handsfree := true

/-- Post-state for PickUp(0) that keeps `handsfree` true: the pick-up
constraints never mention `handsfree`, so this assignment is admitted. -/
def puS2 : State where
  table := fun _ => false
  hand := fun x => decide (x = 0)
  stacked := fun _ _ => false
  clear := fun _ => false
  handsfree := true

/-- Pre-state for a legal PutDown(0): block 0 held, hand not free. -/
def pdS1 : State where
  table := fun _ => false
  hand := fun x => decide (x = 0)
  stacked := fun _ _ => false
  clear := fun _ => false
  handsfree := false

/-- Post-state for PutDown(0) that keeps `handsfree` false. -/
def pdS2 : State where
  table := fun x => decide (x = 0)
  hand := fun _ => false
  stacked := fun _ _ => false
  clear := fun x => decide (x = 0)
  handsfree := false

/-- Pre-state for Stack(0, 1): blocks 0 and 1 clear, block 0 on the table. -/
def stN1 : State where
  table := fun x => decide (x = 0)
  hand := fun _ => false
  stacked := fun _ _ => false
  clear := fun x => decide (x = 0 ∨ x = 1)
  handsfree := true

/-- One successor of Stack(0, 1): only the pair (0, 1) stacked. -/
def stN2a : State where
  table := fun _ => false
  hand := fun _ => false
  stacked := fun x y => decide (x = 0 ∧ y = 1)
  clear := fun x => decide (x = 0)
  handsfree := true

/-- Another successor of Stack(0, 1): the pair (0, 5) also stacked, allowed
because the frame constraint skips every pair whose first component is the
top block. -/
def stN2b : State where
  table := fun _ => false
  hand := fun _ => false
  stacked := fun x y => decide ((x = 0 ∧ y = 1) ∨ (x = 0 ∧ y = 5))
  clear := fun x => decide (x = 0)
  handsfree := true

/-- Pre-state for Unstack(0, 1): block 0 stacked on block 1 and clear. -/
def usN1 : State where
  table := fun x => decide (x = 1)
  hand := fun _ => false
  stacked := fun x y => decide (x = 0 ∧ y = 1)
  clear := fun x => decide (x = 0)
  handsfree := true

/-- One successor of Unstack(0, 1): no pair stacked. -/
def usN2a : State where
  table := fun x => decide (x = 0 ∨ x = 1)
  hand := fun _ => false
  stacked := fun _ _ => false
  clear := fun x => decide (x = 0 ∨ x = 1)
  handsfree := true

/-- Another successor of Unstack(0, 1): the pair (5, 1) newly stacked,
allowed because the frame constraint skips every pair whose second component
is the bottom block. -/
def usN2b : State where
  table := fun x => decide (x = 0 ∨ x = 1)
  hand := fun _ => false
  stacked := fun x y => decide (x = 5 ∧ y = 1)
  clear := fun x => decide (x = 0 ∨ x = 1)
  handsfree := true

/-- A state meeting the goal constraints for one block while holding block 0
in hand: the goal constraints never mention the `hand` predicate. -/
def goalHand1 : State where
  table := fun x => decide (x = 0)
  hand := fun x => decide (x = 0)
  stacked := fun _ _ => false
  clear := fun x => decide (x = 0)
  handsfree := true

/-- The two-step plan PickUp(1), PickUp(0), failing at its first step. -/
def planPu2 : List PlanStep := [("pick_up", 1, -1), ("pick_up", 0, -1)]

/-- A state satisfying the initial conditions for one block that also makes
the out-of-range block `-1` a clear table block: the generators never
constrain predicates at `-1`. -/
def malS0 : State where
  table := fun x => decide (x = 0 ∨ x = -1)
  hand := fun _ => false
  stacked := fun _ _ => false
  clear := fun x => decide (x = 0 ∨ x = -1)
  handsfree := true

/-- A successor of `malS0` under Stack(-1, 0). -/
def malS1 : State where
  table := fun x => decide (x = 0)
  hand := fun _ => false
  stacked := fun x y => decide (x = -1 ∧ y = 0)
  clear := fun x => decide (x = -1)
  handsfree := true

/-- The state assignment for the one-step plan Stack(-1, 0) at one block. -/
def malStates : Nat → State
  | 0 => malS0
  | _ => malS1

lemma dec_iff {p q : Prop} [Decidable p] [Decidable q] (h : p ↔ q) :
    decide p = decide q :=
  decide_eq_decide.mpr h

lemma dec_eq_false {p : Prop} [Decidable p] (h : ¬ p) : decide p = false :=
  decide_eq_false h

lemma false_eq_dec {p : Prop} [Decidable p] (h : ¬ p) : false = decide p :=
  (decide_eq_false h).symm

lemma dec_eq_true {p : Prop} [Decidable p] (h : p) : decide p = true :=
  decide_eq_true h

lemma revS0_init : init_fn revS0 3 := by
  refine ⟨rfl, fun x => rfl, rfl, ?_, ?_, rfl⟩
  · intro i h1 h2
    have h : i = 1 ∨ i = 2 := by omega
    rcases h with h | h <;> subst h <;> exact ⟨rfl, rfl⟩
  · intro i h1 h2
    exact dec_eq_false (by omega)

lemma revS6_goal : goal_fn revS6 3 := by
  refine ⟨rfl, rfl, ?_, ?_, rfl, ?_⟩
  · intro i h1 h2
    exact dec_eq_false (by omega)
  · intro i h1 h2
    have h : i = 0 ∨ i = 1 := by omega
    rcases h with h | h <;> subst h <;> rfl
  · intro i h1 h2
    exact dec_eq_false (by omega)

lemma revStep1 : unstack_constraints revS0 revS1 2 1 := by
  refine ⟨⟨?_, ?_⟩, Or.inr ⟨rfl, rfl, rfl, rfl, rfl, rfl, rfl, rfl⟩⟩
  · intro x hx
    exact ⟨rfl, false_eq_dec (by omega), dec_iff (by omega)⟩
  · intro x y hxy
    exact dec_iff (by omega)

lemma revStep2 : put_down_constraints revS1 revS2 2 := by
  refine ⟨rfl, rfl, rfl, rfl, ?_, fun x y => rfl⟩
  intro x hx
  exact ⟨dec_iff (by omega), dec_eq_false (by omega), dec_iff (by omega)⟩

lemma revStep3 : unstack_constraints revS2 revS3 1 0 := by
  refine ⟨⟨?_, ?_⟩, Or.inr ⟨rfl, rfl, rfl, rfl, rfl, rfl, rfl, rfl⟩⟩
  · intro x hx
    exact ⟨rfl, false_eq_dec (by omega), dec_iff (by omega)⟩
  · intro x y hxy
    exact dec_eq_false (by omega)

lemma revStep4 : stack_constraints revS3 revS4 1 2 := by
  refine ⟨⟨?_, ?_⟩, Or.inr ⟨rfl, rfl, rfl, rfl, rfl, rfl, rfl, rfl, rfl⟩⟩
  · intro x hx
    exact ⟨dec_eq_false (by omega), rfl, dec_iff (by omega)⟩
  · intro x y hxy
    exact false_eq_dec (by omega)

lemma revStep5 : pick_up_constraints revS4 revS5 0 := by
  refine ⟨rfl, rfl, rfl, rfl, rfl, rfl, ?_, fun x y => rfl⟩
  intro x hx
  exact ⟨dec_iff (by omega), false_eq_dec (by omega), dec_iff (by omega)⟩

lemma revStep6 : stack_constraints revS5 revS6 0 1 := by
  refine ⟨⟨?_, ?_⟩, Or.inr ⟨rfl, rfl, rfl, rfl, rfl, rfl, rfl, rfl, rfl⟩⟩
  · intro x hx
    exact ⟨dec_eq_false (by omega), rfl, dec_iff (by omega)⟩
  · intro x y hxy
    exact dec_iff (by omega)

lemma revChain : chainConstraints revStates 0 revPlan = some
    (unstack_constraints revS0 revS1 2 1 ∧
     (put_down_constraints revS1 revS2 2 ∧
      (unstack_constraints revS2 revS3 1 0 ∧
       (stack_constraints revS3 revS4 1 2 ∧
        (pick_up_constraints revS4 revS5 0 ∧
         (stack_constraints revS5 revS6 0 1 ∧ True)))))) := rfl

/-- C1: for three blocks, with the generated initial and goal conditions,
verifying the plan Unstack(2,1), PutDown(2), Unstack(1,0), Stack(1,2),
PickUp(0), Stack(0,1) yields the satisfiable outcome of `verify_plan`. -/
theorem c1_plan_verifies : VerifyPlan 3 init_fn goal_fn revPlan VerifyOutcome.sat := by
  show SystemSat 3 init_fn goal_fn revPlan
  exact ⟨revStates, _, revChain, revS0_init,
    ⟨revStep1, revStep2, revStep3, revStep4, revStep5, revStep6, trivial⟩,
    revS6_goal⟩

lemma init_fn_initState (n : Nat) : init_fn (initState n) n := by
  refine ⟨rfl, fun x => rfl, by simp [initState], ?_, ?_, by simp [initState]⟩
  · intro i h1 h2
    exact ⟨dec_eq_true ⟨h1, h2, rfl⟩, dec_eq_false (by omega)⟩
  · intro i h1 h2
    exact dec_eq_false (by omega)

lemma initState_invariant (n : Nat) : StateInvariant n (initState n) := by
  refine ⟨?_, ?_, ?_, ?_⟩
  · intro b hb0 hbn
    by_cases hb : b = 0
    · subst hb
      left
      refine ⟨by simp [initState], rfl, ?_⟩
      intro c hc0 hcn hcb
      simp only [initState]
      exact dec_eq_false (by omega)
    · right; right
      exact ⟨dec_eq_false (by omega), rfl, b - 1, by omega, by omega, by omega,
        dec_eq_true ⟨by omega, hbn, rfl⟩⟩
  · intro b c hb0 hbn hc0 hcn hb hc
    simp [initState] at hb
  · constructor
    · intro h
      simp [initState] at h
    · rintro ⟨b, -, -, hb⟩
      simp [initState] at hb
  · intro b hb0 hbn
    constructor
    · intro hcl
      have hb : b = (n : Int) - 1 := of_decide_eq_true hcl
      refine ⟨?_, rfl⟩
      intro c hc0 hcn hcb
      exact dec_eq_false (by omega)
    · rintro ⟨hno, -⟩
      by_cases hb : b = (n : Int) - 1
      · exact dec_eq_true hb
      · exfalso
        have h1 := hno (b + 1) (by omega) (by omega) (by omega)
        simp only [initState] at h1
        exact (of_decide_eq_false h1) ⟨by omega, by omega, by omega⟩

lemma goal_fn_goalState (n : Nat) : goal_fn (goalState n) n := by
  refine ⟨rfl, by simp [goalState], ?_, ?_, by simp [goalState], ?_⟩
  · intro i h1 h2
    exact dec_eq_false (by omega)
  · intro i h1 h2
    exact dec_eq_true ⟨h1, h2, rfl⟩
  · intro i h1 h2
    exact dec_eq_false (by omega)

lemma goalState_invariant (n : Nat) : StateInvariant n (goalState n) := by
  refine ⟨?_, ?_, ?_, ?_⟩
  · intro b hb0 hbn
    by_cases hb : b = (n : Int) - 1
    · left
      refine ⟨dec_eq_true hb, rfl, ?_⟩
      intro c hc0 hcn hcb
      exact dec_eq_false (by omega)
    · right; right
      exact ⟨dec_eq_false (by omega), rfl, b + 1, by omega, by omega, by omega,
        dec_eq_true ⟨hb0, by omega, rfl⟩⟩
  · intro b c hb0 hbn hc0 hcn hb hc
    simp [goalState] at hb
  · constructor
    · intro h
      simp [goalState] at h
    · rintro ⟨b, -, -, hb⟩
      simp [goalState] at hb
  · intro b hb0 hbn
    constructor
    · intro hcl
      have hb : b = 0 := of_decide_eq_true hcl
      refine ⟨?_, rfl⟩
      intro c hc0 hcn hcb
      exact dec_eq_false (by omega)
    · rintro ⟨hno, -⟩
      by_cases hb : b = 0
      · exact dec_eq_true hb
      · exfalso
        have h1 := hno (b - 1) (by omega) (by omega) (by omega)
        simp only [goalState] at h1
        exact (of_decide_eq_false h1) ⟨by omega, by omega, by omega⟩

lemma badInit2_init : init_fn badInit2 2 := by
  refine ⟨rfl, fun x => rfl, rfl, ?_, ?_, rfl⟩
  · intro i h1 h2
    have h : i = 1 := by omega
    subst h
    exact ⟨rfl, rfl⟩
  · intro i h1 h2
    have h : i = 0 := by omega
    subst h
    rfl

lemma badInit2_not_inv : ¬ StateInvariant 2 badInit2 := by
  intro h
  rcases h.1 0 (by omega) (by omega) with ⟨-, -, hst⟩ | ⟨htb, -, -⟩ | ⟨htb, -, -⟩
  · have h1 := hst 1 (by omega) (by omega) (by omega)
    simp [badInit2] at h1
  · simp [badInit2] at htb
  · simp [badInit2] at htb

/-- C2 counterexample: the initial generator for two blocks admits a model
with block 0 simultaneously on the table and stacked on block 1, violating
the state invariant; the generated constraints do not determine a unique
invariant-satisfying state. -/
theorem c2_counterexample : init_fn badInit2 2 ∧ ¬ StateInvariant 2 badInit2 :=
  ⟨badInit2_init, badInit2_not_inv⟩

/-- C2 amended: for every block count at least 1, the initial and goal
constraint sets are each satisfiable by a state meeting the state invariant
(the canonical tower and reversed tower); the constraints are consistent
with the invariant but do not force it. -/
theorem c2_generators_admit_invariant :
    ∀ n : Nat, 1 ≤ n →
      (∃ s : State, init_fn s n ∧ StateInvariant n s) ∧
      (∃ s : State, goal_fn s n ∧ StateInvariant n s) :=
  fun n _ =>
    ⟨⟨initState n, init_fn_initState n, initState_invariant n⟩,
     ⟨goalState n, goal_fn_goalState n, goalState_invariant n⟩⟩

/-- C2 witness: instantiation of the amended statement at one block. -/
theorem c2_witness :
    (∃ s : State, init_fn s 1 ∧ StateInvariant 1 s) ∧
    (∃ s : State, goal_fn s 1 ∧ StateInvariant 1 s) :=
  c2_generators_admit_invariant 1 (by decide)

lemma puS_step : pick_up_constraints puS1 puS2 0 := by
  refine ⟨rfl, rfl, rfl, rfl, rfl, rfl, ?_, fun x y => rfl⟩
  intro x hx
  exact ⟨dec_eq_false (by omega), false_eq_dec (by omega), dec_eq_false (by omega)⟩

lemma pdS_step : put_down_constraints pdS1 pdS2 0 := by
  refine ⟨rfl, rfl, rfl, rfl, ?_, fun x y => rfl⟩
  intro x hx
  exact ⟨false_eq_dec (by omega), dec_eq_false (by omega), false_eq_dec (by omega)⟩

/-- C7: the code does not implement the claimed handsFree updates. A legal
PickUp(0) admits a post-state whose `handsfree` flag is still true, and a
legal PutDown(0) admits a post-state whose `handsfree` flag is still false,
because `pick_up_constraints` and `put_down_constraints` leave `handsfree`
entirely unconstrained. -/
theorem c7_handsfree_gap :
    (pick_up_constraints puS1 puS2 0 ∧ puS2.handsfree = true) ∧
    (put_down_constraints pdS1 pdS2 0 ∧ pdS2.handsfree = false) :=
  ⟨⟨puS_step, rfl⟩, ⟨pdS_step, rfl⟩⟩

lemma stN_step_a : stack_constraints stN1 stN2a 0 1 := by
  refine ⟨⟨?_, ?_⟩, Or.inl ⟨rfl, rfl, rfl, rfl, rfl, rfl, rfl, rfl, rfl, rfl⟩⟩
  · intro x hx
    exact ⟨rfl, dec_eq_false (by omega), dec_iff (by omega)⟩
  · intro x y hxy
    exact false_eq_dec (by omega)

lemma stN_step_b : stack_constraints stN1 stN2b 0 1 := by
  refine ⟨⟨?_, ?_⟩, Or.inl ⟨rfl, rfl, rfl, rfl, rfl, rfl, rfl, rfl, rfl, rfl⟩⟩
  · intro x hx
    exact ⟨rfl, dec_eq_false (by omega), dec_iff (by omega)⟩
  · intro x y hxy
    exact false_eq_dec (by omega)

lemma usN_step_a : unstack_constraints usN1 usN2a 0 1 := by
  refine ⟨⟨?_, ?_⟩, Or.inl ⟨rfl, rfl, rfl, rfl, rfl, rfl, rfl, rfl⟩⟩
  · intro x hx
    exact ⟨dec_iff (by omega), rfl, dec_iff (by omega)⟩
  · intro x y hxy
    exact dec_eq_false (by omega)

lemma usN_step_b : unstack_constraints usN1 usN2b 0 1 := by
  refine ⟨⟨?_, ?_⟩, Or.inl ⟨rfl, rfl, rfl, rfl, rfl, rfl, rfl, rfl⟩⟩
  · intro x hx
    exact ⟨dec_iff (by omega), rfl, dec_iff (by omega)⟩
  · intro x y hxy
    exact dec_iff (by omega)

/-- C9: the `stacked` frame of Stack and Unstack fixes only pairs whose
first component differs from the top block and whose second component
differs from the bottom block, so a legal Stack(0,1) has two successor
states disagreeing on the pair (0, 5), and a legal Unstack(0,1) has two
successor states disagreeing on the pair (5, 1): neither action determines
a unique successor state. -/
theorem c9_frame_gap_nonunique :
    (stack_constraints stN1 stN2a 0 1 ∧ stack_constraints stN1 stN2b 0 1 ∧
     stN2a.stacked 0 5 = false ∧ stN2b.stacked 0 5 = true) ∧
    (unstack_constraints usN1 usN2a 0 1 ∧ unstack_constraints usN1 usN2b 0 1 ∧
     usN2a.stacked 5 1 = false ∧ usN2b.stacked 5 1 = true) :=
  ⟨⟨stN_step_a, stN_step_b, rfl, rfl⟩, ⟨usN_step_a, usN_step_b, rfl, rfl⟩⟩

lemma goalHand1_goal : goal_fn goalHand1 1 := by
  refine ⟨rfl, rfl, ?_, ?_, rfl, ?_⟩
  · intro i h1 h2
    exact absurd h1 (by omega)
  · intro i h1 h2
    exact absurd h1 (by omega)
  · intro i h1 h2
    exact absurd h1 (by omega)

/-- C8 counterexample: a terminal state that differs from the intended goal
configuration in a predicate value (block 0 is in hand) still satisfies the
goal constraints, so the goal check is not exact equality over every
predicate. -/
theorem c8_counterexample : goal_fn goalHand1 1 ∧ goalHand1.hand 0 = true :=
  ⟨goalHand1_goal, rfl⟩

lemma goal_fn_hand_update (n : Nat) (s : State) (h : goal_fn s n) (hd : Int → Bool) :
    goal_fn { s with hand := hd } n :=
  h

/-- C8 amended: the goal check is satisfaction of the generated goal
constraint set, which never constrains the `hand` predicate (nor `stacked`
pairs off the target tower), so for every block count two states differing
on whether block 0 is in hand both meet the goal. -/
theorem c8_goal_subset_matching :
    ∀ n : Nat, 1 ≤ n → ∃ s t : State,
      goal_fn s n ∧ goal_fn t n ∧ s.hand 0 = false ∧ t.hand 0 = true :=
  fun n _ =>
    ⟨goalState n, { goalState n with hand := fun x => decide (x = 0) },
     goal_fn_goalState n,
     goal_fn_hand_update n (goalState n) (goal_fn_goalState n) (fun x => decide (x = 0)),
     rfl, rfl⟩

/-- C8 witness: instantiation of the amended statement at one block. -/
theorem c8_witness :
    ∃ s t : State, goal_fn s 1 ∧ goal_fn t 1 ∧ s.hand 0 = false ∧ t.hand 0 = true :=
  c8_goal_subset_matching 1 (by decide)

/-- C6: frame law. For any recognized invocation whose constraint holds
between two states, every block that is not a named parameter keeps its
`table`, `hand` and `clear` values, and every `stacked` pair touching no
named block keeps its value. -/
theorem c6_frame_law :
    ∀ (s1 s2 : State) (act : String) (b1 b2 : Int) (c : Prop),
      actionConstraint s1 s2 act b1 b2 = some c → c →
      (∀ x : Int, ¬ namedBlock act b1 b2 x →
        (s1.table x = s2.table x ∧ s1.hand x = s2.hand x ∧ s1.clear x = s2.clear x)) ∧
      (∀ x y : Int, ¬ namedBlock act b1 b2 x → ¬ namedBlock act b1 b2 y →
        s1.stacked x y = s2.stacked x y) := by
  intro s1 s2 act b1 b2 c hc hcc
  by_cases h1 : act = "pick_up"
  · subst h1
    have hc2 : some (pick_up_constraints s1 s2 b1) = some c := hc
    cases Option.some.inj hc2
    obtain ⟨-, -, -, -, -, -, hframe, hstk⟩ := hcc
    refine ⟨?_, ?_⟩
    · intro x hx
      exact hframe x (fun h => hx h)
    · intro x y hx hy
      exact hstk x y
  · by_cases h2 : act = "put_down"
    · subst h2
      have hc2 : some (put_down_constraints s1 s2 b1) = some c := hc
      cases Option.some.inj hc2
      obtain ⟨-, -, -, -, hframe, hstk⟩ := hcc
      refine ⟨?_, ?_⟩
      · intro x hx
        exact hframe x (fun h => hx h)
      · intro x y hx hy
        exact hstk x y
    · by_cases h3 : act = "stack"
      · subst h3
        have hc2 : some (stack_constraints s1 s2 b1 b2) = some c := hc
        cases Option.some.inj hc2
        obtain ⟨⟨hframe, hstk⟩, -⟩ := hcc
        refine ⟨?_, ?_⟩
        · intro x hx
          obtain ⟨ha, hb, hcl⟩ :=
            hframe x ⟨fun h => hx (Or.inl h), fun h => hx (Or.inr h)⟩
          exact ⟨hb, ha, hcl⟩
        · intro x y hx hy
          exact hstk x y ⟨fun h => hx (Or.inl h), fun h => hy (Or.inr h)⟩
      · by_cases h4 : act = "unstack"
        · subst h4
          have hc2 : some (unstack_constraints s1 s2 b1 b2) = some c := hc
          cases Option.some.inj hc2
          obtain ⟨⟨hframe, hstk⟩, -⟩ := hcc
          refine ⟨?_, ?_⟩
          · intro x hx
            exact hframe x ⟨fun h => hx (Or.inl h), fun h => hx (Or.inr h)⟩
          · intro x y hx hy
            exact hstk x y ⟨fun h => hx (Or.inl h), fun h => hy (Or.inr h)⟩
        · exfalso
          simp only [actionConstraint, if_neg h1, if_neg h2, if_neg h3, if_neg h4] at hc
          exact Option.noConfusion hc

/-- C6 witness: the frame law applied to the concrete legal PickUp(0)
between trace states 4 and 5 of the reversal run, at the unnamed block 7. -/
theorem c6_witness :
    revS4.table 7 = revS5.table 7 ∧ revS4.hand 7 = revS5.hand 7 ∧
    revS4.clear 7 = revS5.clear 7 :=
  (c6_frame_law revS4 revS5 "pick_up" 0 (-1) (pick_up_constraints revS4 revS5 0)
    rfl revStep5).1 7 (by simp [namedBlock])

lemma actionConstraint_none (s1 s2 : State) (act : String) (b1 b2 : Int) :
    actionConstraint s1 s2 act b1 b2 = none ↔ isKnownTag act = false := by
  unfold actionConstraint isKnownTag
  by_cases h1 : act = "pick_up" <;> by_cases h2 : act = "put_down" <;>
    by_cases h3 : act = "stack" <;> by_cases h4 : act = "unstack" <;>
    simp [h1, h2, h3, h4]

lemma chainConstraints_none (states : Nat → State) :
    ∀ (acts : List PlanStep) (i : Nat),
      chainConstraints states i acts = none ↔ ∃ a ∈ acts, isKnownTag a.1 = false := by
  intro acts
  induction acts with
  | nil =>
    intro i
    simp [chainConstraints]
  | cons a rest ih =>
    intro i
    obtain ⟨act, b1, b2⟩ := a
    simp only [chainConstraints]
    rcases hA : actionConstraint (states i) (states (i + 1)) act b1 b2 with _ | cA
    · constructor
      · intro h
        exact ⟨(act, b1, b2), List.mem_cons_self _ _,
          (actionConstraint_none _ _ _ _ _).mp hA⟩
      · intro h
        rfl
    · rcases hR : chainConstraints states (i + 1) rest with _ | cR
      · constructor
        · intro h
          obtain ⟨b, hb, hkb⟩ := (ih (i + 1)).mp hR
          exact ⟨b, List.mem_cons_of_mem _ hb, hkb⟩
        · intro h
          rfl
      · constructor
        · intro h
          exact Option.noConfusion h
        · rintro ⟨b, hb, hkb⟩
          rcases List.mem_cons.mp hb with hb | hb
          · subst hb
            rw [(actionConstraint_none _ _ _ _ _).mpr hkb] at hA
            exact Option.noConfusion hA
          · rw [(ih (i + 1)).mpr ⟨b, hb, hkb⟩] at hR
            exact Option.noConfusion hR

/-- C10: `verify_plan` reports the error outcome exactly when the plan
contains an action tag outside the four recognized tags, and for a plan of
recognized tags it reports either the satisfiable or the unsatisfiable
outcome, never the error outcome. -/
theorem c10_error_characterization :
    ∀ (n : Nat) (init goal : State → Nat → Prop) (acts : List PlanStep),
      (VerifyPlan n init goal acts VerifyOutcome.error ↔
        ∃ a ∈ acts, isKnownTag a.1 = false) ∧
      ((∀ a ∈ acts, isKnownTag a.1 = true) →
        (VerifyPlan n init goal acts VerifyOutcome.sat ∨
         VerifyPlan n init goal acts VerifyOutcome.unsat) ∧
        ¬ VerifyPlan n init goal acts VerifyOutcome.error) := by
  intro n init goal acts
  constructor
  · constructor
    · intro h
      exact (chainConstraints_none (fun _ => default) acts 0).mp (h _)
    · intro h states
      exact (chainConstraints_none states acts 0).mpr h
  · intro hall
    have hnone : ∀ states : Nat → State, chainConstraints states 0 acts ≠ none := by
      intro states hcn
      obtain ⟨a, ha, hk⟩ := (chainConstraints_none states acts 0).mp hcn
      rw [hall a ha] at hk
      exact Bool.noConfusion hk
    constructor
    · by_cases hs : SystemSat n init goal acts
      · exact Or.inl hs
      · refine Or.inr ⟨?_, hs⟩
        rcases hcc : chainConstraints (fun _ => default) 0 acts with _ | c
        · exact absurd hcc (hnone _)
        · exact ⟨fun _ => default, c, hcc⟩
    · intro herr
      exact hnone (fun _ => default) (herr _)

/-- C10 witness: a plan with the unrecognized tag fly is reported as the
error outcome. -/
theorem c10_witness :
    VerifyPlan 1 init_fn goal_fn [("fly", 0, -1)] VerifyOutcome.error :=
  (c10_error_characterization 1 init_fn goal_fn [("fly", 0, -1)]).1.mpr
    ⟨("fly", 0, -1), List.mem_cons_self _ _, by decide⟩

lemma notSat_pu1 : ¬ PrefixSystemSat 3 init_fn [("pick_up", 1, -1)] := by
  rintro ⟨states, c, hc, hinit, hcc⟩
  have hc2 : some (pick_up_constraints (states 0) (states 1) 1 ∧ True) = some c := hc
  cases Option.some.inj hc2
  have htb : (states 0).table 1 = true := hcc.1.1
  have h1 := (hinit.2.2.2.1 1 (by omega) (by omega)).2
  rw [htb] at h1
  exact Bool.noConfusion h1

lemma ffp_pu1 : FindFailingStep 3 init_fn [("pick_up", 1, -1)] 1 :=
  Or.inr ⟨1, by norm_num, le_refl 1, by simp, notSat_pu1,
    fun m h1 h2 => absurd h2 (by omega)⟩

/-- C4 counterexample: for three blocks, the diagnostic run on the one-step
plan PickUp(1) cannot report 0; the claimed 0-based report value is not what
the code returns. -/
theorem c4_counterexample : ¬ FindFailingStep 3 init_fn [("pick_up", 1, -1)] 0 := by
  rintro (⟨h, -⟩ | ⟨k, hk, hk1, -, -, -⟩)
  · exact absurd h (by norm_num)
  · omega

/-- C4 amended: the diagnostic reports the length of the shortest prefix
whose constraint system is unsatisfiable, that is, the 1-based position of
the first failing invocation. For three blocks the plan PickUp(1) fails at
its first invocation (block 1 is not on the table) and the report is 1, the
only value the diagnostic relation admits. -/
theorem c4_one_based_report :
    FindFailingStep 3 init_fn [("pick_up", 1, -1)] 1 ∧
    ∀ r : Int, FindFailingStep 3 init_fn [("pick_up", 1, -1)] r → r = 1 := by
  refine ⟨ffp_pu1, ?_⟩
  rintro r (⟨hr, hall⟩ | ⟨k, hk, hk1, hklen, -, -⟩)
  · exact absurd (hall 1 (le_refl 1) (by simp)) notSat_pu1
  · simp only [List.length_singleton] at hklen
    omega

/-- C4 witness: the unique-report part applied to the positive part. -/
theorem c4_witness : (1 : Int) = 1 :=
  c4_one_based_report.2 1 c4_one_based_report.1

/-- C5 amended: monotonic failure in the convention the code actually uses.
If the diagnostic reports `k` (at least 1) for a plan, then on the first
`k - 1` invocations it reports no failing prefix, and on the first `k`
invocations it reports `k` again. -/
theorem c5_monotonic_failure :
    ∀ (n : Nat) (init : State → Nat → Prop) (acts : List PlanStep) (k : Nat),
      1 ≤ k → FindFailingStep n init acts (k : Int) →
      FindFailingStep n init (acts.take (k - 1)) (-1) ∧
      FindFailingStep n init (acts.take k) (k : Int) := by
  intro n init acts k hk1 hffp
  rcases hffp with ⟨hr, -⟩ | ⟨k2, hk2, hk21, hk2len, hk2un, hk2all⟩
  · exact absurd hr (by omega)
  · have hkk : k = k2 := by omega
    subst hkk
    constructor
    · left
      refine ⟨rfl, ?_⟩
      intro j hj1 hjlen
      rw [List.length_take] at hjlen
      have hjtake : (acts.take (k - 1)).take j = acts.take j := by
        rw [List.take_take]
        congr 1
        omega
      rw [hjtake]
      exact hk2all j hj1 (by omega)
    · right
      refine ⟨k, rfl, hk1, ?_, ?_, ?_⟩
      · rw [List.length_take]
        omega
      · have ht : (acts.take k).take k = acts.take k := by
          rw [List.take_take]
          congr 1
          omega
        rw [ht]
        exact hk2un
      · intro m hm1 hmk
        have ht : (acts.take k).take m = acts.take m := by
          rw [List.take_take]
          congr 1
          omega
        rw [ht]
        exact hk2all m hm1 hmk

lemma ffp_planPu2 : FindFailingStep 3 init_fn planPu2 1 :=
  Or.inr ⟨1, by norm_num, by simp [planPu2], by simp [planPu2], notSat_pu1,
    fun m h1 h2 => absurd h2 (by omega)⟩

/-- C5 counterexample: the diagnostic reports 1 for the plan PickUp(1),
PickUp(0) with three blocks, but re-running it on the first 1 invocation
does not report the no-failure value `-1` (the first invocation is itself
the failing one): the claim read with the reported value as a 0-based index
is false. -/
theorem c5_counterexample :
    FindFailingStep 3 init_fn planPu2 1 ∧
    ¬ FindFailingStep 3 init_fn (planPu2.take 1) (-1) := by
  refine ⟨ffp_planPu2, ?_⟩
  rintro (⟨-, hall⟩ | ⟨k, hk, -, -, -, -⟩)
  · exact notSat_pu1 (hall 1 (le_refl 1) (by simp [planPu2]))
  · exact absurd hk (by omega)

/-- C5 witness: the amended monotonicity applied to the concrete failing
plan at `k = 1`. -/
theorem c5_witness :
    FindFailingStep 3 init_fn (planPu2.take 0) (-1) ∧
    FindFailingStep 3 init_fn (planPu2.take 1) 1 :=
  c5_monotonic_failure 3 init_fn planPu2 1 (le_refl 1) ffp_planPu2

lemma malS0_init : init_fn malS0 1 := by
  refine ⟨rfl, fun x => rfl, rfl, ?_, ?_, rfl⟩
  · intro i h1 h2
    exact absurd h2 (by omega)
  · intro i h1 h2
    exact absurd h2 (by omega)

lemma malStep : stack_constraints malS0 malS1 (-1) 0 := by
  refine ⟨⟨?_, ?_⟩, Or.inl ⟨rfl, rfl, rfl, rfl, rfl, rfl, rfl, rfl, rfl, rfl⟩⟩
  · intro x hx
    exact ⟨rfl, dec_iff (by omega), dec_iff (by omega)⟩
  · intro x y hxy
    exact false_eq_dec (by omega)

lemma malChain : chainConstraints malStates 0 [("stack", -1, 0)] =
    some (stack_constraints malS0 malS1 (-1) 0 ∧ True) := rfl

lemma malSat : PrefixSystemSat 1 init_fn [("stack", -1, 0)] :=
  ⟨malStates, _, malChain, malS0_init, ⟨malStep, trivial⟩⟩

/-- C3 counterexample: for one block, the plan whose only invocation is the
malformed Stack(-1, 0) is reported fully legal by the failing-step
diagnostic (result `-1`), and no failing step (neither 0 nor 1) can be
reported: the malformed invocation is silently accepted, not surfaced as an
illegal step. -/
theorem c3_counterexample :
    FindFailingStep 1 init_fn [("stack", -1, 0)] (-1) ∧
    ¬ FindFailingStep 1 init_fn [("stack", -1, 0)] 0 ∧
    ¬ FindFailingStep 1 init_fn [("stack", -1, 0)] 1 := by
  refine ⟨Or.inl ⟨rfl, ?_⟩, ?_, ?_⟩
  · intro k h1 h2
    simp only [List.length_singleton] at h2
    have hk : k = 1 := by omega
    subst hk
    exact malSat
  · rintro (⟨h, -⟩ | ⟨k, hk, h1, -, -, -⟩)
    · exact absurd h (by norm_num)
    · omega
  · rintro (⟨h, -⟩ | ⟨k, hk, h1, hlen, hun, -⟩)
    · exact absurd h (by norm_num)
    · simp only [List.length_singleton] at hlen
      have hk1 : k = 1 := by omega
      subst hk1
      exact hun malSat

lemma malUnsat (n : Nat) (hn : 2 ≤ n) : ¬ PrefixSystemSat n init_fn [("stack", -1, 0)] := by
  rintro ⟨states, c, hc, hinit, hcc⟩
  have hc2 : some (stack_constraints (states 0) (states 1) (-1) 0 ∧ True) = some c := hc
  cases Option.some.inj hc2
  rcases hcc.1.2 with hA | hB
  · have h0 := hinit.2.2.2.2.1 0 (by omega) (by omega)
    rw [hA.2.2.1] at h0
    exact Bool.noConfusion h0
  · have hh := hinit.2.1 (-1)
    rw [hB.1] at hh
    exact Bool.noConfusion hh

/-- C3 amended: block references are never validated. The malformed
invocation Stack(-1, 0) is not rejected as malformed: at one block it is
accepted as legal (see the counterexample), and at every block count of at
least 2 it merely fails like an ordinary unsatisfiable first step, with the
diagnostic reporting 1 and no distinct malformed-invocation reason. -/
theorem c3_no_malformed_rejection :
    ∀ n : Nat, 2 ≤ n → FindFailingStep n init_fn [("stack", -1, 0)] 1 := by
  intro n hn
  right
  refine ⟨1, by norm_num, le_refl 1, by simp, malUnsat n hn, ?_⟩
  intro m h1 h2
  exact absurd h2 (by omega)

/-- C3 witness: the amended statement at two blocks. -/
theorem c3_witness : FindFailingStep 2 init_fn [("stack", -1, 0)] 1 :=
  c3_no_malformed_rejection 2 (le_refl 2)

end Blocks
